import Mathlib

/-!
# Shallow embedding of the da-cloud-gateway Worker (src/index.js)

The gateway is a single JS module exporting a fetch entrypoint that
authenticates a bearer token, derives a route key from the first two path
segments, resolves a RouteConfig from a static service map with a D1
database fallback, checks the declared downstream secret, and dispatches
to one of two protocol adapters (REST relay, Ably bus publish).

The embedding is executable: every definition below is a computable
structural-recursive function, so concrete runs reduce by rfl / decide.
External collaborators (the D1 store, the downstream REST service, the
Ably endpoint) are modelled as oracles supplied per request; network
operations the gateway performs are recorded in an effect trace.

JS semantics notes baked into the model:
* Environment variables and the master token are strings or undefined;
  the extracted bearer token is a string or null.  The strict comparison
  (token !== masterToken) is false only when both sides are strings and
  equal, because null !== undefined in JS; tokenMatches encodes exactly
  that.
* JS string truthiness (used for config.authKeyEnvName, env lookups and
  config.table_name) is: defined and nonempty.
* The module is an ES module, hence strict mode: assigning a property to
  a JSON.parse result that is a primitive (number, string, boolean, null)
  throws a TypeError, which the surrounding catch in handleRest absorbs,
  leaving the body unmodified; for arrays the added property is dropped
  again by JSON.stringify.  transformParsed reflects this.
* response.json() consumes the response body before it rejects on
  non-JSON content, so the response.text() call in handleRest's catch
  throws a TypeError on the already-used body (and constructing a
  Response with a null-body status would throw too): the non-JSON
  downstream branch always rejects the adapter promise instead of
  passing the body and status through.
* handleRest and handleAbly are async functions: calling them never
  throws synchronously, and the dispatcher returns their promise without
  awaiting it, so a rejected adapter promise propagates out of fetch; the
  dispatcher's try/catch cannot observe it.  fetchHandler therefore
  returns Except PromiseErr GResponse, with .error for a rejection that
  escapes the entrypoint.
-/

namespace DaCloudGateway

/-! ## Character-level string operations (JS built-ins, made reducible) -/

/-- Whitespace test used by the model of String.prototype.trim. -/
def isWsChar (c : Char) : Bool :=
  c = ' ' || c = '\t' || c = '\n' || c = '\r'

/-- Drop leading whitespace characters. -/
def dropLeadingWs : List Char → List Char
  | [] => []
  | c :: r => if isWsChar c then dropLeadingWs r else c :: r

/-- Model of JS String.prototype.trim: strip whitespace from both ends. -/
def trimString (s : String) : String :=
  String.mk ((dropLeadingWs (dropLeadingWs s.data.reverse).reverse))

/-- Model of JS str.split('/'): split on the slash character, keeping
empty segments (split of the empty string is one empty segment). -/
def splitSlashChars : List Char → List (List Char)
  | [] => [[]]
  | c :: rest =>
    let r := splitSlashChars rest
    if c = '/' then [] :: r
    else
      match r with
      | [] => [[c]]
      | seg :: segs => (c :: seg) :: segs

/-- url.pathname.split('/') as a list of strings. -/
def jsSplitPath (s : String) : List String :=
  (splitSlashChars s.data).map String.mk

/-- Leading-match test on character lists. -/
def leadMatches : List Char → List Char → Bool
  | [], _ => true
  | _ :: _, [] => false
  | a :: as, b :: bs => a = b && leadMatches as bs

/-- Model of JS String.prototype.startsWith. -/
def jsStartsWith (s pre : String) : Bool :=
  leadMatches pre.data s.data

/-- Model of JS str.slice(n) for nonnegative n: drop the first n chars. -/
def jsDrop (s : String) (n : Nat) : String :=
  String.mk (s.data.drop n)

/-- Model of JS str.slice(0, -1): drop the last character. -/
def jsDropLast (s : String) : String :=
  String.mk s.data.dropLast

/-- Model of JS str.endsWith('/'). -/
def jsEndsWithSlash (s : String) : Bool :=
  match s.data.reverse with
  | '/' :: _ => true
  | _ => false

/-- Model of JS str.replace(slash-regex-global, '.'): every slash becomes
a dot. -/
def slashesToDots (s : String) : String :=
  String.mk (s.data.map fun c => if c = '/' then '.' else c)

/-- Model of JS array.join('/'). -/
def joinSlash : List String → String
  | [] => ""
  | [s] => s
  | s :: t :: r => s ++ "/" ++ joinSlash (t :: r)

/-! ## JSON values and JSON.stringify -/

mutual

/-- A JSON value, as produced by JSON.parse. -/
inductive Json where
  | null : Json
  | bool (b : Bool) : Json
  | num (n : Int) : Json
  | str (s : String) : Json
  | arr (xs : JsonArr) : Json
  | obj (fs : JsonFields) : Json
  deriving DecidableEq

/-- The element list of a JSON array. -/
inductive JsonArr where
  | nil : JsonArr
  | cons (x : Json) (xs : JsonArr) : JsonArr
  deriving DecidableEq

/-- The ordered field list of a JSON object (JSON.parse yields unique
keys, in source order). -/
inductive JsonFields where
  | nil : JsonFields
  | cons (k : String) (v : Json) (fs : JsonFields) : JsonFields
  deriving DecidableEq

end

/-- Escape a character for a JSON string literal (quotes and
backslashes; the strings in this development contain no control
characters). -/
def escapeChar (c : Char) : List Char :=
  if c = '"' then ['\\', '"']
  else if c = '\\' then ['\\', '\\']
  else [c]

/-- Escape a string for inclusion in JSON output. -/
def escapeString (s : String) : String :=
  String.mk (s.data.flatMap escapeChar)

/-- A JSON string literal with its quotes. -/
def quoteString (s : String) : String :=
  "\"" ++ escapeString s ++ "\""

mutual

/-- Model of JSON.stringify on a JSON value (compact separators, fields
in order). -/
def Json.render : Json → String
  | .null => "null"
  | .bool true => "true"
  | .bool false => "false"
  | .num n => toString n
  | .str s => quoteString s
  | .arr xs => "[" ++ JsonArr.renderItems xs ++ "]"
  | .obj fs => "\x7b" ++ JsonFields.renderItems fs ++ "\x7d"

/-- Comma-joined renderings of array elements. -/
def JsonArr.renderItems : JsonArr → String
  | .nil => ""
  | .cons x .nil => x.render
  | .cons x (.cons y ys) => x.render ++ "," ++ JsonArr.renderItems (.cons y ys)

/-- Comma-joined renderings of object fields. -/
def JsonFields.renderItems : JsonFields → String
  | .nil => ""
  | .cons k v .nil => quoteString k ++ ":" ++ v.render
  | .cons k v (.cons k2 v2 fs) =>
      quoteString k ++ ":" ++ v.render ++ "," ++ JsonFields.renderItems (.cons k2 v2 fs)

end

/-- First value bound to a key (JS property read). -/
def JsonFields.lookup : JsonFields → String → Option Json
  | .nil, _ => none
  | .cons k v fs, key => if k == key then some v else fs.lookup key

/-- JS property assignment: overwrite in place when the key exists,
append otherwise. -/
def JsonFields.set : JsonFields → String → Json → JsonFields
  | .nil, key, val => .cons key val .nil
  | .cons k v fs, key, val =>
      if k == key then .cons k val fs else .cons k v (fs.set key val)

/-- JS delete of a property (keys from JSON.parse are unique, so
removing every occurrence coincides with removing the one slot). -/
def JsonFields.erase : JsonFields → String → JsonFields
  | .nil, _ => .nil
  | .cons k v fs, key =>
      if k == key then fs.erase key else .cons k v (fs.erase key)

/-- Concatenation of two field lists. -/
def JsonFields.append : JsonFields → JsonFields → JsonFields
  | .nil, gs => gs
  | .cons k v fs, gs => .cons k v (fs.append gs)

/-- Build a field list from a Lean list (for concrete inputs). -/
def JsonFields.ofList : List (String × Json) → JsonFields
  | [] => .nil
  | (k, v) :: r => .cons k v (JsonFields.ofList r)

/-- Build an array from a Lean list (for concrete inputs). -/
def JsonArr.ofList : List Json → JsonArr
  | [] => .nil
  | x :: r => .cons x (JsonArr.ofList r)

/-! ## Request bodies -/

/-- The inbound (or outbound) HTTP body, classified by whether
JSON.parse accepts its text.  unparseable covers the empty and
whitespace-only bodies as well as malformed JSON; parsed j is a body
whose text parses to j. -/
inductive RawBody where
  | unparseable (s : String) : RawBody
  | parsed (j : Json) : RawBody
  deriving DecidableEq

/-- The text actually sent over the wire for a body. -/
def renderBody : RawBody → String
  | .unparseable s => s
  | .parsed j => j.render

/-! ## Route configuration, environment, store and effect trace -/

/-- A resolved route configuration (the JSON rows of the service map /
store).  Optional JS fields are Option; type is the raw type string. -/
structure RouteConfig where
  type : String
  targetUrl : String
  channelName : String
  authKeyEnvName : Option String
  table_name : Option String
  deriving DecidableEq

/-- The Worker environment: named secrets / variables, a string or
undefined. -/
def EnvMap := String → Option String

/-- Outcome of the single D1 row fetch for a key, covering every branch
of findConfigFromDB in the source: the prepared query throws (qerror),
no rows come back (noRows), the row's t1 column is falsy (emptyPayload),
the t1 text fails JSON.parse (badJson), or it parses to a config
(rowCfg). -/
inductive DBRowResult where
  | qerror : DBRowResult
  | noRows : DBRowResult
  | emptyPayload : DBRowResult
  | badJson (raw : String) : DBRowResult
  | rowCfg (cfg : RouteConfig) : DBRowResult
  deriving DecidableEq

/-- The external route store as the dispatcher sees it: whether env.DB
is bound, and the outcome of fetching each key. -/
structure DBState where
  hasDB : Bool
  fetchRow : String → DBRowResult

/-- A store failure in the sense of the spec: any outcome other than a
parsed config row. -/
def DBRowResult.isFailure : DBRowResult → Bool
  | .rowCfg _ => false
  | _ => true

/-- Downstream network operations the gateway performs, in order. -/
inductive Eff where
  | dbQuery (key : String) : Eff
  | restForward (url : String) (body : String) : Eff
  | busPublish (url : String) (body : String) : Eff
  deriving DecidableEq

/-- Is the effect an adapter call (REST forward or bus publish)? -/
def Eff.isAdapterCall : Eff → Bool
  | .dbQuery _ => false
  | .restForward _ _ => true
  | .busPublish _ _ => true

/-- Behaviour of the downstream REST service for this request's forward:
the fetch promise rejects, or a response arrives with a status, a body
(json = its JSON.parse outcome, text = its raw text) and a content
type. -/
inductive RestOutcome where
  | reject : RestOutcome
  | resp (status : Nat) (json : Option Json) (text : String)
      (contentType : Option String) : RestOutcome

/-- Behaviour of the Ably publish endpoint for this request: the fetch
rejects, or completes with ok / not-ok and an error text. -/
inductive BusOutcome where
  | reject : BusOutcome
  | done (ok : Bool) (errText : String) : BusOutcome

/-- The external world for one request. -/
structure World where
  rest : RestOutcome
  bus : BusOutcome

/-- An adapter promise that rejects; the dispatcher returns it without
awaiting, so it escapes the fetch entrypoint. -/
inductive PromiseErr where
  | rejected : PromiseErr
  deriving DecidableEq

/-- An inbound request: method, url.pathname, url.search, the
Authorization header (none = absent) and the body. -/
structure GRequest where
  method : String
  path : String
  search : String
  authorization : Option String
  body : RawBody

/-- An HTTP response produced by the gateway: status, serialized body,
content type. -/
structure GResponse where
  status : Nat
  body : String
  contentType : String
  deriving DecidableEq

/-! ## Envelope builders (jsonError / jsonSuccess in the source) -/

/-- jsonError(msg, code): status code, body from
JSON.stringify with success false and the error message. -/
def jsonError (msg : String) (code : Nat) : GResponse :=
  ⟨code,
   (Json.obj (.cons "success" (.bool false) (.cons "error" (.str msg) .nil))).render,
   "application/json"⟩

/-- Index-keyed fields contributed by spreading an array into an object
literal. -/
def indexedFields (i : Nat) : JsonArr → JsonFields
  | .nil => .nil
  | .cons x xs => .cons (toString i) x (indexedFields (i + 1) xs)

/-- Index-keyed fields contributed by spreading a string into an object
literal (one single-character string per index). -/
def charFields (i : Nat) : List Char → JsonFields
  | [] => .nil
  | c :: cs => .cons (toString i) (.str (String.mk [c])) (charFields (i + 1) cs)

/-- The field list of the object literal with success true spread with
data.  For an object, a success key inside data overwrites the flag's
value while the key keeps its creation position, and every other field
of data follows in insertion order (JS would enumerate integer-like
keys such as "0" ahead of the rest in JSON.stringify output; the
development's properties about objects are stated through lookup or
exercised on objects without such keys).  Spreading an array or string
contributes its indexed elements, which JS enumerates before the
success key; spreading any other primitive contributes nothing. -/
def successFields : Json → JsonFields
  | .obj fs => .cons "success" ((fs.lookup "success").getD (.bool true)) (fs.erase "success")
  | .arr xs => (indexedFields 0 xs).append (.cons "success" (.bool true) .nil)
  | .str s => (charFields 0 s.data).append (.cons "success" (.bool true) .nil)
  | _ => .cons "success" (.bool true) .nil

/-- jsonSuccess(data): a Response with no explicit status, hence 200,
whose body is the spread envelope. -/
def jsonSuccess (data : Json) : GResponse :=
  ⟨200, (Json.obj (successFields data)).render, "application/json"⟩

/-! ## Constants from the source -/

def C_GATEWAY_TOKEN_NAME : String := "DAGATEWAYTOKEN"

def ABLY_PUBLISH_BASE_URL : String := "https://rest.ably.io/channels"

/-! ## Authentication -/

/-- Token extraction in fetch: with the header defaulted to the empty
string, if it starts with the Bearer scheme take the rest trimmed,
else null (none). -/
def extractToken (authHeader : Option String) : Option String :=
  let a := authHeader.getD ""
  if jsStartsWith a "Bearer " then some (trimString (jsDrop a 7)) else none

/-- The negation of (token !== masterToken): token is a string or null,
masterToken a string or undefined, and strict equality holds only when
both are strings and equal (null !== undefined in JS). -/
def tokenMatches (token master : Option String) : Bool :=
  match token, master with
  | some t, some m => t == m
  | _, _ => false

/-- JS truthiness of a string-or-undefined value: defined and
nonempty. -/
def strTruthy (v : Option String) : Bool :=
  match v with
  | some s => !(s == "")
  | none => false

/-- env indexed by an optional name (an absent name reads an absent
key). -/
def secretFor (env : EnvMap) (name : Option String) : Option String :=
  match name with
  | some n => env n
  | none => none

/-! ## Config resolution (findConfigFromDB and the static-map fallback) -/

/-- findConfigFromDB: null when no DB handle is bound; otherwise one
query is issued and every failure branch (throw, no rows, falsy t1,
JSON.parse error) yields null, a parsed row yields its config. -/
def findConfigFromDB (st : DBState) (key : String) : Option RouteConfig × List Eff :=
  if st.hasDB then
    ((match st.fetchRow key with
      | .rowCfg cfg => some cfg
      | _ => none),
     [Eff.dbQuery key])
  else
    (none, [])

/-- The dispatcher's resolution step:
static map short-circuits the store (the map's values are objects,
hence truthy). -/
def resolveConfig (sm : String → Option RouteConfig) (st : DBState) (key : String) :
    Option RouteConfig × List Eff :=
  match sm key with
  | some cfg => (some cfg, [])
  | none => findConfigFromDB st key

/-! ## Body transformation (the rewrite inside handleRest) -/

/-- The truthiness test on config.table_name that selects the inject
branch. -/
def declaresTableName (cfg : RouteConfig) : Bool :=
  strTruthy cfg.table_name

/-- The rewrite applied to a successfully parsed body.  On an object:
truthy config.table_name is written over the table_name field, otherwise
the field is deleted.  On an array the property write is dropped again
by JSON.stringify and the membership test is false, so the array is
unchanged.  On a primitive the strict-mode property write throws a
TypeError that the enclosing catch absorbs, leaving the body as it
was. -/
def transformParsed (cfg : RouteConfig) : Json → Json
  | .obj fs =>
      match cfg.table_name with
      | some t =>
          if t == "" then .obj (fs.erase "table_name")
          else .obj (fs.set "table_name" (.str t))
      | none => .obj (fs.erase "table_name")
  | j => j

/-- The whole body pipeline of handleRest: empty, whitespace-only or
unparseable text is forwarded verbatim; parsed text is rewritten and
re-serialized. -/
def transformBody (cfg : RouteConfig) : RawBody → RawBody
  | .unparseable s => .unparseable s
  | .parsed j => .parsed (transformParsed cfg j)

/-! ## Protocol adapters -/

/-- handleRest: build the downstream URL from the cleaned target, the
internal path and the query string; transform the body; forward; wrap a
JSON-parseable downstream body in the success envelope (status 200).
When the downstream body is not JSON, response.json() has already
consumed the response body before rejecting, so the catch's
response.text() throws a TypeError on the used body (and for null-body
statuses the new Response construction would throw as well): the
adapter promise rejects.  A rejected downstream fetch rejects it
likewise.  The downstream status therefore survives on no path out of
this adapter. -/
def handleRest (_env : EnvMap) (cfg : RouteConfig) (internalPath : String)
    (req : GRequest) (w : World) : Except PromiseErr GResponse × List Eff :=
  let cleanedTargetUrl :=
    if jsEndsWithSlash cfg.targetUrl then jsDropLast cfg.targetUrl else cfg.targetUrl
  let finalUrl := cleanedTargetUrl ++ internalPath ++ req.search
  let newBody := transformBody cfg req.body
  let effs := [Eff.restForward finalUrl (renderBody newBody)]
  match w.rest with
  | .reject => (.error .rejected, effs)
  | .resp _ bodyJson _ _ =>
    match bodyJson with
    | some j => (.ok (jsonSuccess j), effs)
    | none => (.error .rejected, effs)

/-- handleAbly: a body that fails JSON.parse is a 400 naming the
internal path, before any network call; otherwise the message name is
the internal path minus its leading slash with slashes turned to dots,
the publish body is the one-element message array, and the publish
outcome maps to the success payload or a 502 with the bus error text. -/
def handleAbly (_env : EnvMap) (cfg : RouteConfig) (internalPath : String)
    (req : GRequest) (w : World) : Except PromiseErr GResponse × List Eff :=
  let publishEndpoint := ABLY_PUBLISH_BASE_URL ++ "/" ++ cfg.channelName ++ "/messages"
  match req.body with
  | .unparseable _ =>
      (.ok (jsonError ("ABLY event body must be valid JSON for path: " ++ internalPath) 400), [])
  | .parsed clientPayload =>
    let msgName := slashesToDots (jsDrop internalPath 1)
    let messageBusPayload :=
      (Json.arr (.cons (.obj (.cons "name" (.str msgName)
        (.cons "data" clientPayload .nil))) .nil)).render
    let effs := [Eff.busPublish publishEndpoint messageBusPayload]
    match w.bus with
    | .reject => (.error .rejected, effs)
    | .done true _ =>
        (.ok (jsonSuccess (.obj (.cons "status" (.str "Accepted")
          (.cons "message" (.str ("Event published successfully to Ably channel: " ++ cfg.channelName)) .nil)))),
         effs)
    | .done false errText =>
        (.ok (jsonError ("Failed to publish event to Ably: " ++ errText) 502), effs)

/-! ## The fetch entrypoint -/

/-- The Worker fetch handler.  Returns the response (or the escaped
rejection of an adapter promise: the dispatcher returns the async
adapter's promise from inside try without awaiting, so its rejection is
not caught) together with the trace of downstream operations. -/
def fetchHandler (env : EnvMap) (st : DBState) (sm : String → Option RouteConfig)
    (req : GRequest) (w : World) : Except PromiseErr GResponse × List Eff :=
  let masterToken := env C_GATEWAY_TOKEN_NAME
  let token := extractToken req.authorization
  if !(tokenMatches token masterToken) then
    (.ok (jsonError "Unauthorized" 401), [])
  else
    match (jsSplitPath req.path).filter (fun s => !(s == "")) with
    | a :: b :: rest =>
      let lookupKey := a ++ "/" ++ b
      match resolveConfig sm st lookupKey with
      | (none, effs) =>
          (.ok (jsonError "Endpoint Not Found or Unsupported Version" 404), effs)
      | (some cfg, effs) =>
        if strTruthy cfg.authKeyEnvName && !(strTruthy (secretFor env cfg.authKeyEnvName)) then
          (.ok (jsonError "Gateway configuration error: Missing Secret Key for Downstream Service" 500), effs)
        else
          let internalPath := "/" ++ joinSlash (b :: rest)
          if cfg.type == "REST" then
            let r := handleRest env cfg internalPath req w
            (r.1, effs ++ r.2)
          else if cfg.type == "ABLY" then
            let r := handleAbly env cfg internalPath req w
            (r.1, effs ++ r.2)
          else
            (.ok (jsonError ("Unsupported service type: " ++ cfg.type) 501), effs)
    | _ =>
      (.ok (jsonError "Invalid API Path Format. Expected /\x7bversion\x7d/\x7bmodule\x7d/..." 400), [])

/-! ## Helper lemmas on field lists and the resolver trace -/

theorem JsonFields.lookup_set_self : ∀ (fs : JsonFields) (k : String) (v : Json),
    (fs.set k v).lookup k = some v
  | .nil, k, v => by simp [JsonFields.set, JsonFields.lookup]
  | .cons k2 v2 fs, k, v => by
    by_cases h : k2 = k
    · subst h; simp [JsonFields.set, JsonFields.lookup]
    · simp [JsonFields.set, JsonFields.lookup, h,
        JsonFields.lookup_set_self fs k v]

theorem JsonFields.lookup_set_ne : ∀ (fs : JsonFields) (k k2 : String) (v : Json),
    k2 ≠ k → (fs.set k v).lookup k2 = fs.lookup k2
  | .nil, k, k2, v, h => by
    simp [JsonFields.set, JsonFields.lookup, Ne.symm h]
  | .cons k3 v3 fs, k, k2, v, h => by
    by_cases h3 : k3 = k
    · subst h3
      simp [JsonFields.set, JsonFields.lookup, Ne.symm h]
    · by_cases h32 : k3 = k2
      · subst h32; simp [JsonFields.set, JsonFields.lookup, h3]
      · simp [JsonFields.set, JsonFields.lookup, h3, h32,
          JsonFields.lookup_set_ne fs k k2 v h]

theorem JsonFields.lookup_erase_self : ∀ (fs : JsonFields) (k : String),
    (fs.erase k).lookup k = none
  | .nil, k => by simp [JsonFields.erase, JsonFields.lookup]
  | .cons k2 v2 fs, k => by
    by_cases h : k2 = k
    · subst h; simp [JsonFields.erase, JsonFields.lookup_erase_self fs k2]
    · simp [JsonFields.erase, JsonFields.lookup, h,
        JsonFields.lookup_erase_self fs k]

theorem JsonFields.lookup_erase_ne : ∀ (fs : JsonFields) (k k2 : String),
    k2 ≠ k → (fs.erase k).lookup k2 = fs.lookup k2
  | .nil, _, _, _ => by simp [JsonFields.erase]
  | .cons k3 v3 fs, k, k2, h => by
    by_cases h3 : k3 = k
    · subst h3
      simp [JsonFields.erase, JsonFields.lookup, Ne.symm h,
        JsonFields.lookup_erase_ne fs k3 k2 h]
    · simp [JsonFields.erase, JsonFields.lookup, h3,
        JsonFields.lookup_erase_ne fs k k2 h]

theorem resolveConfig_no_adapter_effs (sm : String → Option RouteConfig)
    (st : DBState) (key : String) :
    ∀ e ∈ (resolveConfig sm st key).2, e.isAdapterCall = false := by
  intro e he
  unfold resolveConfig at he
  cases hsm : sm key with
  | some cfg => rw [hsm] at he; simp at he
  | none =>
    rw [hsm] at he
    unfold findConfigFromDB at he
    cases hdb : st.hasDB
    · rw [hdb] at he; simp at he
    · rw [hdb] at he
      simp at he
      subst he
      rfl

/-! ## Concrete fixtures for witnesses and counterexamples -/

/-- An environment holding the master token and the two downstream
secrets. -/
def envT : EnvMap := fun n =>
  if n == "DAGATEWAYTOKEN" then some "tok"
  else if n == "ABLYKEY" then some "k"
  else if n == "RESTKEY" then some "r"
  else none

/-- An Ably route config. -/
def cfgAbly : RouteConfig :=
  ⟨"ABLY", "", "ch", some "ABLYKEY", none⟩

/-- A REST route config that declares a table name. -/
def cfgRest : RouteConfig :=
  ⟨"REST", "https://svc.example/", "", some "RESTKEY", some "T"⟩

/-- A REST route config that declares no table name. -/
def cfgNoTn : RouteConfig :=
  ⟨"REST", "https://svc.example", "", some "RESTKEY", none⟩

/-- A route config whose declared secret is not in the environment. -/
def cfgNoSecret : RouteConfig :=
  ⟨"REST", "https://svc.example", "", some "MISSING", none⟩

/-- A different config for the same key, sitting in the store, used to
show the static table cannot be shadowed. -/
def cfgShadow : RouteConfig :=
  ⟨"REST", "https://other.example", "", some "RESTKEY", none⟩

/-- Static map holding only the orders/created Ably route. -/
def smOrders : String → Option RouteConfig := fun k =>
  if k == "orders/created" then some cfgAbly else none

/-- Static map holding only the v1/svc REST route. -/
def smRest : String → Option RouteConfig := fun k =>
  if k == "v1/svc" then some cfgRest else none

/-- Static map routing v1/svc to the config with a missing secret. -/
def smNoSecret : String → Option RouteConfig := fun k =>
  if k == "v1/svc" then some cfgNoSecret else none

/-- No DB binding. -/
def stT : DBState := ⟨false, fun _ => .noRows⟩

/-- A bound store holding a different config for every key. -/
def stShadow : DBState := ⟨true, fun _ => .rowCfg cfgShadow⟩

/-- A bound store whose lookup throws. -/
def stFail : DBState := ⟨true, fun _ => .qerror⟩

/-- The event request of the spec example: path /orders/created with
payload id 1, correctly authenticated. -/
def reqOrders : GRequest :=
  ⟨"POST", "/orders/created", "", some "Bearer tok",
   .parsed (.obj (.cons "id" (.num 1) .nil))⟩

/-- A correctly authenticated REST request to v1/svc. -/
def reqRest : GRequest :=
  ⟨"POST", "/v1/svc/echo", "", some "Bearer tok", .unparseable ""⟩

/-- A request carrying a non-Bearer Authorization header. -/
def reqBadAuth : GRequest :=
  ⟨"GET", "/v1/svc", "", some "Basic xyz", .unparseable ""⟩

/-- A well-formed authenticated request to a key no table serves. -/
def reqVS : GRequest :=
  ⟨"GET", "/v1/svc", "", some "Bearer tok", .unparseable ""⟩

/-- Quiet world: REST echoes 200 with no JSON, bus accepts. -/
def wT : World := ⟨.resp 200 none "" none, .done true ""⟩

/-- World where the downstream REST service answers 404 with the JSON
body a=1. -/
def wRest404 : World :=
  ⟨.resp 404 (some (.obj (.cons "a" (.num 1) .nil))) "\x7b\"a\":1\x7d"
    (some "application/json"), .done true ""⟩

/-- World where the downstream REST fetch rejects (network failure). -/
def wReject : World := ⟨.reject, .done true ""⟩

/-- Client body that tries to smuggle a table_name. -/
def fsClient : JsonFields :=
  .cons "table_name" (.str "client") (.cons "x" (.num 5) .nil)

/-- A downstream JSON body carrying its own success key. -/
def fsDown : JsonFields := .cons "success" (.bool false) .nil

/-- Dropping the leading slash of a slash-prefixed string gives the
string back. -/
theorem jsDrop_one_slash (x : String) : jsDrop ("/" ++ x) 1 = x := by
  cases x with | mk l => rfl

/-! ## Claim theorems -/

/-- C1: a request whose Authorization header is absent, does not begin
with the Bearer scheme, or whose trimmed remainder differs from the
configured master token, is answered with the 401 unauthorized envelope
and an empty effect trace: no store query, no REST forward, no bus
publish. -/
theorem auth_failure_short_circuits
    (env : EnvMap) (st : DBState) (sm : String → Option RouteConfig)
    (req : GRequest) (w : World)
    (h : req.authorization = none
      ∨ (∃ a, req.authorization = some a ∧ jsStartsWith a "Bearer " = false)
      ∨ (∃ a, req.authorization = some a ∧ jsStartsWith a "Bearer " = true
          ∧ some (trimString (jsDrop a 7)) ≠ env C_GATEWAY_TOKEN_NAME)) :
    fetchHandler env st sm req w = (.ok (jsonError "Unauthorized" 401), []) := by
  have hm : tokenMatches (extractToken req.authorization) (env C_GATEWAY_TOKEN_NAME) = false := by
    rcases h with h | ⟨a, ha, hpre⟩ | ⟨a, ha, hpre, hne⟩
    · rw [h]
      cases env C_GATEWAY_TOKEN_NAME <;> rfl
    · rw [ha]
      have he : extractToken (some a) = none := by simp [extractToken, hpre]
      rw [he]
      cases env C_GATEWAY_TOKEN_NAME <;> rfl
    · rw [ha]
      have he : extractToken (some a) = some (trimString (jsDrop a 7)) := by
        simp [extractToken, hpre]
      rw [he]
      cases henv : env C_GATEWAY_TOKEN_NAME with
      | none => rfl
      | some m =>
        rw [henv] at hne
        simp [tokenMatches]
        exact fun hh => hne (congrArg some hh)
  simp [fetchHandler, hm]

/-- Witness for C1: a Basic-scheme header is rejected with 401 and no
effects. -/
theorem auth_failure_short_circuits_witness :
    fetchHandler envT stT smRest reqBadAuth wT = (.ok (jsonError "Unauthorized" 401), []) :=
  auth_failure_short_circuits envT stT smRest reqBadAuth wT
    (Or.inr (Or.inl ⟨"Basic xyz", rfl, rfl⟩))

/-- C2: a key in the static table resolves to the static config with an
empty effect trace (the store, whatever it holds, is never consulted);
a key not in the static table makes the resolver issue exactly one
store query. -/
theorem static_table_precedence_and_single_store_query
    (sm : String → Option RouteConfig) (st : DBState) (key : String) :
    (∀ cfg, sm key = some cfg → resolveConfig sm st key = (some cfg, []))
    ∧ (sm key = none → st.hasDB = true →
        (resolveConfig sm st key).2 = [Eff.dbQuery key]) := by
  constructor
  · intro cfg h
    simp [resolveConfig, h]
  · intro h hdb
    simp [resolveConfig, h, findConfigFromDB, hdb]

/-- Witness for C2: the static orders/created entry wins over a store
holding a different config for the same key, with no query; on a map
miss the same store is queried exactly once. -/
theorem static_table_precedence_and_single_store_query_witness :
    resolveConfig smOrders stShadow "orders/created" = (some cfgAbly, [])
    ∧ (resolveConfig (fun _ => none) stShadow "orders/created").2 =
        [Eff.dbQuery "orders/created"] :=
  ⟨(static_table_precedence_and_single_store_query smOrders stShadow "orders/created").1
      cfgAbly rfl,
   (static_table_precedence_and_single_store_query (fun _ => none) stShadow
      "orders/created").2 rfl rfl⟩

/-- C3: when the key misses the static table and the store fetch fails
in any way (query throw, no row, empty payload, unparseable payload),
the authenticated request is answered with the 404 endpoint-not-found
envelope; resolution is a total function and never surfaces a store
error. -/
theorem store_failure_resolves_to_endpoint_not_found
    (env : EnvMap) (st : DBState) (sm : String → Option RouteConfig)
    (req : GRequest) (w : World) (a b : String) (rest : List String)
    (hauth : tokenMatches (extractToken req.authorization) (env C_GATEWAY_TOKEN_NAME) = true)
    (hsegs : (jsSplitPath req.path).filter (fun s => !(s == "")) = a :: b :: rest)
    (hsm : sm (a ++ "/" ++ b) = none)
    (hdb : (st.fetchRow (a ++ "/" ++ b)).isFailure = true) :
    (fetchHandler env st sm req w).1 =
      .ok (jsonError "Endpoint Not Found or Unsupported Version" 404) := by
  have h1 : (resolveConfig sm st (a ++ "/" ++ b)).1 = none := by
    unfold resolveConfig
    rw [hsm]
    unfold findConfigFromDB
    cases hhas : st.hasDB with
    | false => simp
    | true =>
      simp
      cases hfr : st.fetchRow (a ++ "/" ++ b) <;> simp_all [DBRowResult.isFailure]
  rcases hre : resolveConfig sm st (a ++ "/" ++ b) with ⟨c, effs⟩
  have hc : c = none := by rw [hre] at h1; exact h1
  subst hc
  simp [fetchHandler, hauth, hsegs, hre]

/-- Witness for C3: an authenticated request for an unmapped key whose
store query throws gets the 404 envelope. -/
theorem store_failure_resolves_to_endpoint_not_found_witness :
    (fetchHandler envT stFail (fun _ => none) reqVS wT).1 =
      .ok (jsonError "Endpoint Not Found or Unsupported Version" 404) :=
  store_failure_resolves_to_endpoint_not_found envT stFail (fun _ => none) reqVS wT
    "v1" "svc" [] rfl rfl rfl rfl

/-- C10: with the DAGATEWAYTOKEN secret absent from the environment,
every request is rejected with 401 and no downstream effect: the
extracted token is a string or null and strict equality with the
undefined master token is always false. -/
theorem missing_master_token_fails_closed
    (env : EnvMap) (st : DBState) (sm : String → Option RouteConfig)
    (req : GRequest) (w : World)
    (h : env C_GATEWAY_TOKEN_NAME = none) :
    fetchHandler env st sm req w = (.ok (jsonError "Unauthorized" 401), []) := by
  have hm : tokenMatches (extractToken req.authorization) (env C_GATEWAY_TOKEN_NAME) = false := by
    rw [h]
    cases extractToken req.authorization <;> rfl
  simp [fetchHandler, hm]

/-- Witness for C10: an empty environment rejects even a well-formed
bearer request. -/
theorem missing_master_token_fails_closed_witness :
    fetchHandler (fun _ => none) stT smRest reqVS wT =
      (.ok (jsonError "Unauthorized" 401), []) :=
  missing_master_token_fails_closed (fun _ => none) stT smRest reqVS wT rfl

/-- C4: for a body parsing to a JSON object, a truthy config table name
is written over the table_name field (overwriting any client value),
an untruthy one strips the field, and in both cases every other field
keeps its value; empty, whitespace-only or unparseable bodies are
forwarded verbatim. -/
theorem table_name_rewrite_rules
    (cfg : RouteConfig) (fs : JsonFields) (s : String) :
    (∀ t, cfg.table_name = some t → t ≠ "" →
        transformBody cfg (.parsed (.obj fs)) =
          .parsed (.obj (fs.set "table_name" (.str t)))
        ∧ (fs.set "table_name" (.str t)).lookup "table_name" = some (.str t)
        ∧ ∀ k, k ≠ "table_name" →
            (fs.set "table_name" (.str t)).lookup k = fs.lookup k)
    ∧ (declaresTableName cfg = false →
        transformBody cfg (.parsed (.obj fs)) =
          .parsed (.obj (fs.erase "table_name"))
        ∧ (fs.erase "table_name").lookup "table_name" = none
        ∧ ∀ k, k ≠ "table_name" →
            (fs.erase "table_name").lookup k = fs.lookup k)
    ∧ transformBody cfg (.unparseable s) = .unparseable s := by
  refine ⟨?_, ?_, rfl⟩
  · intro t ht hne
    refine ⟨?_, JsonFields.lookup_set_self fs _ _,
      fun k hk => JsonFields.lookup_set_ne fs _ k _ hk⟩
    simp [transformBody, transformParsed, ht, hne]
  · intro hd
    refine ⟨?_, JsonFields.lookup_erase_self fs _,
      fun k hk => JsonFields.lookup_erase_ne fs _ k hk⟩
    cases ht : cfg.table_name with
    | none => simp [transformBody, transformParsed, ht]
    | some t =>
      have hte : t = "" := by
        unfold declaresTableName strTruthy at hd
        rw [ht] at hd
        simpa using hd
      subst hte
      simp [transformBody, transformParsed, ht]

/-- Witness for C4: the declared name T overwrites the client's value,
the undeclaring config strips the client's field, and a whitespace body
passes verbatim. -/
theorem table_name_rewrite_rules_witness :
    transformBody cfgRest (.parsed (.obj fsClient)) =
      .parsed (.obj (fsClient.set "table_name" (.str "T")))
    ∧ (fsClient.set "table_name" (.str "T")).lookup "table_name" = some (.str "T")
    ∧ transformBody cfgNoTn (.parsed (.obj fsClient)) =
        .parsed (.obj (fsClient.erase "table_name"))
    ∧ (fsClient.erase "table_name").lookup "table_name" = none
    ∧ transformBody cfgRest (.unparseable "   ") = .unparseable "   " :=
  ⟨((table_name_rewrite_rules cfgRest fsClient "   ").1 "T" rfl (by decide)).1,
   ((table_name_rewrite_rules cfgRest fsClient "   ").1 "T" rfl (by decide)).2.1,
   ((table_name_rewrite_rules cfgNoTn fsClient "   ").2.1 rfl).1,
   ((table_name_rewrite_rules cfgNoTn fsClient "   ").2.1 rfl).2.1,
   (table_name_rewrite_rules cfgRest fsClient "   ").2.2⟩

/-- C5: an authenticated, routed request whose config names a secret
that the environment lacks is answered with the 500 configuration
error, and the effect trace holds no adapter call (no REST forward, no
bus publish) — only whatever store query resolution itself made. -/
theorem missing_secret_returns_500_without_adapter
    (env : EnvMap) (st : DBState) (sm : String → Option RouteConfig)
    (req : GRequest) (w : World) (a b : String) (rest : List String)
    (cfg : RouteConfig) (effs : List Eff) (n : String)
    (hauth : tokenMatches (extractToken req.authorization) (env C_GATEWAY_TOKEN_NAME) = true)
    (hsegs : (jsSplitPath req.path).filter (fun s => !(s == "")) = a :: b :: rest)
    (hres : resolveConfig sm st (a ++ "/" ++ b) = (some cfg, effs))
    (hname : cfg.authKeyEnvName = some n)
    (hn : n ≠ "")
    (habsent : env n = none) :
    fetchHandler env st sm req w =
      (.ok (jsonError "Gateway configuration error: Missing Secret Key for Downstream Service" 500), effs)
    ∧ ∀ e ∈ effs, e.isAdapterCall = false := by
  constructor
  · have hguard : (strTruthy cfg.authKeyEnvName &&
        !(strTruthy (secretFor env cfg.authKeyEnvName))) = true := by
      simp [strTruthy, hname, secretFor, habsent, hn]
    simp [fetchHandler, hauth, hsegs, hres, hguard]
  · intro e he
    exact resolveConfig_no_adapter_effs sm st (a ++ "/" ++ b) e (by rw [hres]; exact he)

/-- Witness for C5: the v1/svc route declaring the MISSING secret gets
the 500 envelope with an adapter-free trace. -/
theorem missing_secret_returns_500_without_adapter_witness :
    fetchHandler envT stT smNoSecret reqVS wT =
      (.ok (jsonError "Gateway configuration error: Missing Secret Key for Downstream Service" 500), [])
    ∧ ∀ e ∈ ([] : List Eff), e.isAdapterCall = false :=
  missing_secret_returns_500_without_adapter envT stT smNoSecret reqVS wT
    "v1" "svc" [] cfgNoSecret [] "MISSING" rfl rfl rfl rfl (by decide) rfl

/-- C6 counterexample: for request path /orders/created with payload
id 1, the body handed to the bus publish is the message named created —
the first path segment is consumed by the route key — not the claimed
orders.created message. -/
theorem bus_publish_name_counterexample :
    (fetchHandler envT stT smOrders reqOrders wT).2 =
      [Eff.busPublish "https://rest.ably.io/channels/ch/messages"
        "[\x7b\"name\":\"created\",\"data\":\x7b\"id\":1\x7d\x7d]"]
    ∧ "[\x7b\"name\":\"created\",\"data\":\x7b\"id\":1\x7d\x7d]" ≠
      "[\x7b\"name\":\"orders.created\",\"data\":\x7b\"id\":1\x7d\x7d]" :=
  ⟨rfl, by decide⟩

/-- C6 amended: for an event-bus route the published body is the
one-element message array whose name is the internal path — the request
path minus its first segment — with the leading slash stripped and the
remaining slashes turned to dots, and whose data is the parsed
payload. -/
theorem bus_publish_body_uses_path_after_first_segment
    (env : EnvMap) (st : DBState) (sm : String → Option RouteConfig)
    (req : GRequest) (w : World) (a b : String) (rest : List String)
    (cfg : RouteConfig) (effs : List Eff) (j : Json)
    (hauth : tokenMatches (extractToken req.authorization) (env C_GATEWAY_TOKEN_NAME) = true)
    (hsegs : (jsSplitPath req.path).filter (fun s => !(s == "")) = a :: b :: rest)
    (hres : resolveConfig sm st (a ++ "/" ++ b) = (some cfg, effs))
    (hguard : (strTruthy cfg.authKeyEnvName &&
        !(strTruthy (secretFor env cfg.authKeyEnvName))) = false)
    (htype : cfg.type = "ABLY")
    (hbody : req.body = .parsed j) :
    (fetchHandler env st sm req w).2 =
      effs ++ [Eff.busPublish
        (ABLY_PUBLISH_BASE_URL ++ "/" ++ cfg.channelName ++ "/messages")
        ((Json.arr (.cons (.obj (.cons "name"
            (.str (slashesToDots (joinSlash (b :: rest))))
            (.cons "data" j .nil))) .nil)).render)] := by
  simp [fetchHandler, hauth, hsegs, hres, hguard, htype, handleAbly, hbody,
    jsDrop_one_slash]
  cases w.bus with
  | reject => rfl
  | done ok errText => cases ok <;> rfl

/-- Witness for C6 amended: the /orders/created event publishes the
message named created. -/
theorem bus_publish_body_uses_path_after_first_segment_witness :
    (fetchHandler envT stT smOrders reqOrders wT).2 =
      [Eff.busPublish "https://rest.ably.io/channels/ch/messages"
        "[\x7b\"name\":\"created\",\"data\":\x7b\"id\":1\x7d\x7d]"] := by
  have h := bus_publish_body_uses_path_after_first_segment envT stT smOrders reqOrders wT
    "orders" "created" [] cfgAbly [] (.obj (.cons "id" (.num 1) .nil))
    rfl rfl rfl rfl rfl rfl
  exact h.trans rfl

/-- C7 counterexample: a downstream 404 whose body is the JSON a=1 is
wrapped by the gateway at status 200 — the downstream status is not
preserved for JSON bodies. -/
theorem rest_json_status_counterexample :
    (fetchHandler envT stT smRest reqRest wRest404).1 =
      .ok (jsonSuccess (.obj (.cons "a" (.num 1) .nil)))
    ∧ (jsonSuccess (.obj (.cons "a" (.num 1) .nil))).status = 200
    ∧ (jsonSuccess (.obj (.cons "a" (.num 1) .nil))).status ≠ 404 :=
  ⟨rfl, rfl, by decide⟩

/-- C7 amended: whenever the downstream response body parses as JSON,
the gateway answers with the success envelope built from exactly that
JSON, always at status 200: the original downstream status code is
never preserved on the gateway's response (and the non-JSON catch
branch rejects on the consumed body rather than pass the status
through). -/
theorem rest_json_downstream_wrapped_at_200
    (env : EnvMap) (st : DBState) (sm : String → Option RouteConfig)
    (req : GRequest) (w : World) (a b : String) (rest : List String)
    (cfg : RouteConfig) (effs : List Eff) (dstatus : Nat) (j : Json)
    (text : String) (ct : Option String)
    (hauth : tokenMatches (extractToken req.authorization) (env C_GATEWAY_TOKEN_NAME) = true)
    (hsegs : (jsSplitPath req.path).filter (fun s => !(s == "")) = a :: b :: rest)
    (hres : resolveConfig sm st (a ++ "/" ++ b) = (some cfg, effs))
    (hguard : (strTruthy cfg.authKeyEnvName &&
        !(strTruthy (secretFor env cfg.authKeyEnvName))) = false)
    (htype : cfg.type = "REST")
    (hrest : w.rest = .resp dstatus (some j) text ct) :
    (fetchHandler env st sm req w).1 = .ok (jsonSuccess j)
    ∧ (jsonSuccess j).status = 200 := by
  constructor
  · simp [fetchHandler, hauth, hsegs, hres, hguard, htype, handleRest, hrest]
  · rfl

/-- Witness for C7 amended: the 404 JSON downstream response of the
counterexample world is wrapped at 200. -/
theorem rest_json_downstream_wrapped_at_200_witness :
    (fetchHandler envT stT smRest reqRest wRest404).1 =
      .ok (jsonSuccess (.obj (.cons "a" (.num 1) .nil)))
    ∧ (jsonSuccess (.obj (.cons "a" (.num 1) .nil))).status = 200 :=
  rest_json_downstream_wrapped_at_200 envT stT smRest reqRest wRest404
    "v1" "svc" ["echo"] cfgRest [] 404 (.obj (.cons "a" (.num 1) .nil))
    "\x7b\"a\":1\x7d" (some "application/json")
    rfl rfl rfl rfl rfl rfl

/-- C8: at the concrete authenticated REST request whose downstream
fetch rejects, the value leaving the fetch entrypoint is the escaped
rejected promise, not a 500 response: the dispatcher returns the async
adapter's promise from inside try without awaiting it, so the catch
block that would map the error to the gateway-processing-failed 500 can
never observe an adapter rejection. -/
theorem adapter_rejection_escapes_fetch :
    (fetchHandler envT stT smRest reqRest wReject).1 = .error PromiseErr.rejected :=
  rfl

/-- C9: a success key inside the downstream JSON object overwrites the
gateway's success flag: the envelope's success field carries the
downstream value, and the envelope body is the downstream object with
its success value in first position. -/
theorem downstream_success_key_overwrites_flag
    (fs : JsonFields) (v : Json)
    (h : fs.lookup "success" = some v) :
    (successFields (.obj fs)).lookup "success" = some v
    ∧ (jsonSuccess (.obj fs)).body =
        (Json.obj (.cons "success" v (fs.erase "success"))).render := by
  constructor
  · simp [successFields, h, JsonFields.lookup]
  · simp [jsonSuccess, successFields, h]

/-- Witness for C9: a downstream body with success false yields the
envelope body with success false. -/
theorem downstream_success_key_overwrites_flag_witness :
    (successFields (.obj fsDown)).lookup "success" = some (.bool false)
    ∧ (jsonSuccess (.obj fsDown)).body = "\x7b\"success\":false\x7d" := by
  have h := downstream_success_key_overwrites_flag fsDown (.bool false) rfl
  exact ⟨h.1, h.2.trans rfl⟩

end DaCloudGateway
